import Mathlib

/-!
Shallow embedding of src/binding.cc (a V8 worker binding with multiple
execution contexts per isolate).  The V8 engine itself is treated as an
opaque capability: script compilation/execution outcomes and guest handler
behaviours are passed in as parameters, while the binding's own state
(worker record, context records, the per-context global scope installed by
context_new, and the intrinsic dispatch logic) is translated directly from
the C++ source.
-/

namespace V8Worker

/-- The five intrinsic functions installed by context_new. -/
inductive IntrinsicKind
  | printK
  | recvK
  | sendK
  | sendSyncK
  | recvSyncK
deriving DecidableEq

/-- JavaScript values as far as the binding inspects them: strings,
integers (the `$context` slot holds an Integer), guest function objects
(identified by an abstract id), the injected intrinsic function objects,
and everything else collapsed to `undefined`. -/
inductive JSValue
  | str (s : String)
  | int (n : Int)
  | func (fid : Nat)
  | intrinsic (k : IntrinsicKind)
  | undefined
deriving DecidableEq

/-- v->IsFunction(): guest function objects and the injected intrinsics are
functions. -/
def JSValue.isFunction : JSValue → Bool
  | JSValue.func _ => true
  | JSValue.intrinsic _ => true
  | _ => false

/-- v->IsString(). -/
def JSValue.isString : JSValue → Bool
  | JSValue.str _ => true
  | _ => false

/-- One property of a context's global object.  `writable` records the
property attribute it was installed with (Template::Set uses attribute
None, i.e. writable, unless told otherwise). -/
structure GProp where
  name : String
  val : JSValue
  writable : Bool
deriving DecidableEq

/-- Property read on a global object. -/
def scopeGet : List GProp → String → Option JSValue
  | [], _ => none
  | p :: rest, n => if p.name == n then some p.val else scopeGet rest n

/-- Property write on a global object (sloppy-mode assignment): an existing
writable property is updated, a non-writable one is silently left alone,
and an absent name is created as an ordinary writable property. -/
def scopeWrite (s : List GProp) (n : String) (v : JSValue) : List GProp :=
  if s.any (fun p => p.name == n) then
    s.map (fun p => if p.name == n && p.writable then { p with val := v } else p)
  else s ++ [{ name := n, val := v, writable := true }]

/-- Int32 wraparound, as performed by v8::Value::Int32Value. -/
def toInt32 (n : Int) : Int :=
  let m := n % 4294967296
  let m := if m < 0 then m + 4294967296 else m
  if m < 2147483648 then m else m - 4294967296

/-- ctx->Global()->Get("$context")->Int32Value(): reads the identity slot
out of the calling scope; non-numeric values convert to 0. -/
def readContextGlobal (s : List GProp) : Int :=
  match scopeGet s "$context" with
  | some (JSValue.int n) => toInt32 n
  | _ => 0

/-- struct context_s.  `cb`, `req_cb` and `data` are the opaque host
callback/data pointers (abstract ids).  `pctx` models whether the
Persistent<Context> handle currently holds a reference; `recv` and
`recv_sync_handler` are the guest handler Persistents (none = empty).
`scope` is the global object of the V8 context the record owns, modelled
inline.  `freed` records that the record storage was released by
delete(c). -/
structure context where
  id : Int
  data : Nat
  cb : Nat
  req_cb : Nat
  pctx : Bool
  recv : Option JSValue
  recv_sync_handler : Option JSValue
  scope : List GProp
  freed : Bool
deriving DecidableEq

/-- struct worker_s (the isolate pointer itself is not modelled; all
operations below already run against the owning worker). -/
structure worker where
  data : Nat
  contextIndex : Int
  last_exception : String
  contexts : List (Int × context)
deriving DecidableEq

/-- std::map lookup by key. -/
def mapLookup : List (Int × context) → Int → Option context
  | [], _ => none
  | (k, v) :: rest, key => if k == key then some v else mapLookup rest key

/-- std::map::insert: keeps the existing entry when the key is already
present. -/
def mapInsert (m : List (Int × context)) (k : Int) (v : context) : List (Int × context) :=
  match mapLookup m k with
  | some _ => m
  | none => (k, v) :: m

/-- Mutation through the pointer stored in the map: the entry for `k` (keys
are unique in a std::map) is replaced by `f` applied to it. -/
def mapUpdate : List (Int × context) → Int → (context → context) → List (Int × context)
  | [], _, _ => []
  | (k, v) :: rest, key, f =>
    if k == key then (k, f v) :: mapUpdate rest key f
    else (k, v) :: mapUpdate rest key f

/-- Positional metadata of a caught error (try_catch->Message()). -/
structure MsgInfo where
  resourceName : String
  lineNumber : Int
  sourceLine : String
  startColumn : Int
  endColumn : Int
deriving DecidableEq

/-- A caught engine error: the exception text, the captured stack trace
text ("" when the engine supplies none), and optional positional
metadata. -/
structure ExcInfo where
  exception : String
  stackTrace : String
  message : Option MsgInfo
deriving DecidableEq

/-- for (i = 0; i < n; i++) out.append(piece). -/
def appendLoopAux : Nat → String → String → String
  | 0, _, out => out
  | n + 1, piece, out => appendLoopAux n piece (out ++ piece)

/-- for (i = lo; i < hi; i++) out.append(piece): the loop body runs
max(hi - lo, 0) times. -/
def appendLoop (lo hi : Int) (piece out : String) : String :=
  appendLoopAux (hi - lo).toNat piece out

/-- ExceptionString: formats a caught error.  The 20-byte scratch buffer of
the original snprintf("%i", linenum) always fits a decimal int, so the line
number prints in full. -/
def ExceptionString (e : ExcInfo) : String :=
  match e.message with
  | none => e.exception ++ "\n"
  | some m =>
    let out := m.resourceName
    let out := out ++ ":"
    let out := out ++ toString m.lineNumber
    let out := out ++ "\n"
    let out := out ++ m.sourceLine
    let out := out ++ "\n"
    let out := appendLoop 0 m.startColumn " " out
    let out := appendLoop m.startColumn m.endColumn "^" out
    let out := out ++ "\n"
    if 0 < e.stackTrace.length then out ++ e.stackTrace ++ "\n"
    else out ++ e.exception ++ "\n"

/-- worker_new: fresh isolate, contextIndex 0, empty registry, empty
last_exception (default-constructed std::string). -/
def worker_new (d : Nat) : worker :=
  { data := d, contextIndex := 0, last_exception := "", contexts := [] }

/-- worker_last_exception: returns w->last_exception (a read; it takes no
other action on the worker). -/
def worker_last_exception (w : worker) : String :=
  w.last_exception

/-- The global object template built by context_new, in source order:
$context (an Integer, installed by Template::Set with default attribute
None, hence writable), then the five intrinsics. -/
def freshScope (id : Int) : List GProp :=
  [ { name := "$context", val := JSValue.int id, writable := true },
    { name := "$print", val := JSValue.intrinsic IntrinsicKind.printK, writable := true },
    { name := "$recv", val := JSValue.intrinsic IntrinsicKind.recvK, writable := true },
    { name := "$send", val := JSValue.intrinsic IntrinsicKind.sendK, writable := true },
    { name := "$sendSync", val := JSValue.intrinsic IntrinsicKind.sendSyncK, writable := true },
    { name := "$recvSync", val := JSValue.intrinsic IntrinsicKind.recvSyncK, writable := true } ]

/-- context_new: builds the global template, creates the V8 context, fills
in the record (id := w->contextIndex, empty handler Persistents), inserts
it into the registry and increments the counter. -/
def context_new (w : worker) (cb rcb d : Nat) : worker × context :=
  let c : context :=
    { id := w.contextIndex
      data := d
      cb := cb
      req_cb := rcb
      pctx := true
      recv := none
      recv_sync_handler := none
      scope := freshScope w.contextIndex
      freed := false }
  ({ w with
      contexts := mapInsert w.contexts w.contextIndex c
      contextIndex := w.contextIndex + 1 }, c)

/-- context_dispose(context* c): c->context.Reset(); delete(c).  The
function receives only the context pointer: the worker's registry is not
touched, so its entry for c->id remains and now refers to the freed record.
The recv / recv_sync_handler Persistents are not Reset (their references
are never released; NonCopyablePersistentTraits does not reset in the
destructor). -/
def context_dispose (w : worker) (cid : Int) : worker :=
  { w with contexts := mapUpdate w.contexts cid (fun c => { c with pctx := false, freed := true }) }

/-- Outcome of an intrinsic invocation: a normal completion, an argument
type assert failing (the process aborts; nothing is returned to the
guest), or the null-pointer dereference that follows std::map::operator[]
default-inserting a null context* for an unknown id. -/
inductive IntrOut (α : Type)
  | ok (a : α)
  | assertFail
  | nullDeref
deriving DecidableEq

/-- Recv intrinsic: resolves the owning context by reading $context out of
the calling global scope, then asserts the argument is a function and
stores it in that context's recv slot (last write wins). -/
def Recv (w : worker) (callerScope : List GProp) (arg : JSValue) : IntrOut worker :=
  if arg.isFunction then
    match mapLookup w.contexts (readContextGlobal callerScope) with
    | some _ =>
      IntrOut.ok { w with contexts := mapUpdate w.contexts (readContextGlobal callerScope) (fun c => { c with recv := some arg }) }
    | none => IntrOut.nullDeref
  else IntrOut.assertFail

/-- RecvSync intrinsic: same resolution, stores into recv_sync_handler. -/
def RecvSync (w : worker) (callerScope : List GProp) (arg : JSValue) : IntrOut worker :=
  if arg.isFunction then
    match mapLookup w.contexts (readContextGlobal callerScope) with
    | some _ =>
      IntrOut.ok { w with contexts := mapUpdate w.contexts (readContextGlobal callerScope) (fun c => { c with recv_sync_handler := some arg }) }
    | none => IntrOut.nullDeref
  else IntrOut.assertFail

/-- Send intrinsic: resolves the owning context the same way, asserts the
argument is a string, and invokes c->cb(msg, c->data); the ok outcome
carries the (callback, message, data) triple handed to the host. -/
def Send (w : worker) (callerScope : List GProp) (arg : JSValue) : IntrOut (Nat × String × Nat) :=
  match arg with
  | JSValue.str s =>
    match mapLookup w.contexts (readContextGlobal callerScope) with
    | some c => IntrOut.ok (c.cb, s, c.data)
    | none => IntrOut.nullDeref
  | _ => IntrOut.assertFail

/-- SendSync intrinsic: as Send but returns the host callback's reply
string as the intrinsic's own return value; `hostReply` gives the host
sync callback's behaviour. -/
def SendSync (w : worker) (callerScope : List GProp) (arg : JSValue)
    (hostReply : Nat → String → Nat → String) : IntrOut String :=
  match arg with
  | JSValue.str s =>
    match mapLookup w.contexts (readContextGlobal callerScope) with
    | some c => IntrOut.ok (hostReply c.req_cb s c.data)
    | none => IntrOut.nullDeref
  | _ => IntrOut.assertFail

/-- Result of calling a guest function: it either throws or completes with
a value. -/
inductive CallResult
  | thrown (e : ExcInfo)
  | value (v : JSValue)

/-- worker_send: Local<Function>::New of an empty recv Persistent is empty,
giving status 1 with the fixed message; otherwise the handler is called
with msg, a caught throw gives status 2 with the formatted exception, and
any completion value is ignored (status 0).  `beh` is the behaviour of the
registered guest function. -/
def worker_send (w : worker) (c : context) (msg : String)
    (beh : JSValue → String → CallResult) : worker × Nat :=
  match c.recv with
  | none => ({ w with last_exception := "$recv not called" }, 1)
  | some f =>
    match beh f msg with
    | CallResult.thrown e => ({ w with last_exception := ExceptionString e }, 2)
    | CallResult.value _ => (w, 0)

/-- worker_sendSync: no handler gives the sentinel string, a string result
is passed through, any other result value gives the non-string sentinel.
The worker is returned unchanged on every path (the C function performs no
write to w).  The source wraps no TryCatch around the call, so a throwing
handler dereferences an empty handle (undefined behaviour); `sbeh` gives
the handler's returned value. -/
def worker_sendSync (w : worker) (c : context) (msg : String)
    (sbeh : JSValue → String → JSValue) : String × worker :=
  match c.recv_sync_handler with
  | none => ("err: $recvSync not called", w)
  | some f =>
    match sbeh f msg with
    | JSValue.str s => (s, w)
    | _ => ("err: non-string return value", w)

/-- Outcome of running a compiled script. -/
inductive RunOut
  | completed (v : JSValue)
  | threw (e : ExcInfo)

/-- Outcome of Script::Compile on given (name, source). -/
inductive CompileOut
  | failed (e : ExcInfo)
  | compiled (r : RunOut)

/-- worker_load: compiles source_s attributed to name_s inside c's context
and runs it; compile failure gives 1, an uncaught throw during the run
gives 2, both storing the formatted exception; success gives 0.  `engine`
is the engine's compile-and-run behaviour on the given name and source. -/
def worker_load (w : worker) (c : context) (name_s source_s : String)
    (engine : String → String → CompileOut) : worker × Nat :=
  match engine name_s source_s with
  | CompileOut.failed e => ({ w with last_exception := ExceptionString e }, 1)
  | CompileOut.compiled (RunOut.threw e) => ({ w with last_exception := ExceptionString e }, 2)
  | CompileOut.compiled (RunOut.completed _) => (w, 0)

/-- Operations guest code running inside one context's global scope can
perform against the binding: write the $context identity global (an
ordinary property assignment), or call the two registration intrinsics
with a function argument. -/
inductive GuestOp
  | setCtxGlobal (v : Int)
  | regAsync (fid : Nat)
  | regSync (fid : Nat)
deriving DecidableEq

/-- Whether a guest operation is a write to the $context global. -/
def isSetCtx : GuestOp → Bool
  | GuestOp.setCtxGlobal _ => true
  | _ => false

/-- One guest operation executed from the global scope of the context
registered under `aid`; none models a crash (the executing context is gone
from the registry, or an intrinsic aborted / dereferenced null). -/
def guestStep (w : worker) (aid : Int) (op : GuestOp) : Option worker :=
  match mapLookup w.contexts aid with
  | none => none
  | some a =>
    match op with
    | GuestOp.setCtxGlobal v =>
      let m2 := mapUpdate w.contexts aid
        (fun c => { c with scope := scopeWrite c.scope "$context" (JSValue.int v) })
      some { w with contexts := m2 }
    | GuestOp.regAsync fid =>
      match Recv w a.scope (JSValue.func fid) with
      | IntrOut.ok w2 => some w2
      | _ => none
    | GuestOp.regSync fid =>
      match RecvSync w a.scope (JSValue.func fid) with
      | IntrOut.ok w2 => some w2
      | _ => none

/-- A sequence of guest operations, all performed from context `aid`'s
global scope. -/
def runGuest : worker → Int → List GuestOp → Option worker
  | w, _, [] => some w
  | w, aid, op :: rest =>
    match guestStep w aid op with
    | none => none
    | some w2 => runGuest w2 aid rest

/-- The identity global of the context registered under `aid` still reads
back as `aid` (true in particular right after context_new, before any
guest write to $context). -/
def ctxIdOk (m : List (Int × context)) (aid : Int) : Bool :=
  match mapLookup m aid with
  | none => false
  | some c => readContextGlobal c.scope == aid

/-- Host-side lifecycle operations on one worker. -/
inductive HostOp
  | create (cb rcb d : Nat)
  | disposeC (cid : Int)

def hostStep (w : worker) : HostOp → worker
  | HostOp.create cb rcb d => (context_new w cb rcb d).1
  | HostOp.disposeC cid => context_dispose w cid

def runHost : worker → List HostOp → worker
  | w, [] => w
  | w, op :: rest => runHost (hostStep w op) rest

/-- The context ids handed out along a trace of lifecycle operations, in
order of assignment. -/
def idsAssigned : worker → List HostOp → List Int
  | _, [] => []
  | w, HostOp.create cb rcb d :: rest =>
    (context_new w cb rcb d).2.id :: idsAssigned (context_new w cb rcb d).1 rest
  | w, HostOp.disposeC cid :: rest => idsAssigned (context_dispose w cid) rest

def countCreates : List HostOp → Nat
  | [] => 0
  | HostOp.create _ _ _ :: rest => countCreates rest + 1
  | HostOp.disposeC _ :: rest => countCreates rest

/-- The intrinsic function objects installed in a global scope, in
order. -/
def intrinsicsOf (s : List GProp) : List IntrinsicKind :=
  s.filterMap (fun p => match p.val with
    | JSValue.intrinsic k => some k
    | _ => none)

/-- The writable attribute of a named property of a global scope. -/
def scopeWritable : List GProp → String → Option Bool
  | [], _ => none
  | p :: rest, n => if p.name == n then some p.writable else scopeWritable rest n

/-- Concrete workers used to instantiate the theorems below. -/
def demoW0 : worker := worker_new 0

def demoCtx : context := (context_new demoW0 0 0 0).2

def demoW1 : worker := (context_new demoW0 0 0 0).1

def demoW2 : worker := (context_new demoW1 0 0 0).1

def wAfterReg : worker := (runGuest demoW2 0 [GuestOp.regAsync 9]).getD demoW2

def demoWreg : worker := (runGuest demoW1 0 [GuestOp.regAsync 5]).getD demoW1

def demoCtxReg : context := { demoCtx with recv := some (JSValue.func 1) }

def engOk : String → String → CompileOut :=
  fun _ _ => CompileOut.compiled (RunOut.completed JSValue.undefined)

def behOk : JSValue → String → CallResult :=
  fun _ _ => CallResult.value JSValue.undefined

def wRecv9 : worker :=
  match Recv demoW1 demoCtx.scope (JSValue.func 9) with
  | IntrOut.ok w => w
  | _ => demoW1

def demoMsg : MsgInfo :=
  { resourceName := "f.js", lineNumber := 3, sourceLine := "xy",
    startColumn := 1, endColumn := 2 }

def demoExc : ExcInfo :=
  { exception := "boom", stackTrace := "", message := some demoMsg }

theorem str_mk_append (a b : List Char) : String.mk a ++ String.mk b = String.mk (a ++ b) := rfl

theorem str_append_empty (s : String) : s ++ "" = s := by
  cases s with
  | mk l =>
    show String.mk l ++ String.mk [] = String.mk l
    rw [str_mk_append, List.append_nil]

theorem str_assoc (a b c : String) : a ++ b ++ c = a ++ (b ++ c) := by
  cases a with
  | mk la =>
    cases b with
    | mk lb =>
      cases c with
      | mk lc => simp [str_mk_append, List.append_assoc]

theorem appendLoopAux_char (c : Char) :
    ∀ (n : Nat) (out : String),
      appendLoopAux n (String.mk [c]) out = out ++ String.mk (List.replicate n c) := by
  intro n
  induction n with
  | zero =>
    intro out
    show out = out ++ String.mk []
    rw [show String.mk ([] : List Char) = "" from rfl, str_append_empty]
  | succ k ih =>
    intro out
    show appendLoopAux k (String.mk [c]) (out ++ String.mk [c]) = _
    rw [ih, str_assoc]
    cases out with
    | mk lo =>
      rw [str_mk_append, str_mk_append, List.replicate_succ]
      rfl

theorem mapLookup_mapUpdate_self (m : List (Int × context)) (k : Int) (f : context → context) :
    mapLookup (mapUpdate m k f) k = (mapLookup m k).map f := by
  induction m with
  | nil => rfl
  | cons p rest ih =>
    obtain ⟨pk, pv⟩ := p
    by_cases h : pk = k
    · simp [mapUpdate, mapLookup, h]
    · simp [mapUpdate, mapLookup, h, ih]

theorem mapLookup_mapUpdate_ne (m : List (Int × context)) (k q : Int) (f : context → context)
    (h : k ≠ q) : mapLookup (mapUpdate m k f) q = mapLookup m q := by
  induction m with
  | nil => rfl
  | cons p rest ih =>
    obtain ⟨pk, pv⟩ := p
    by_cases hk : pk = k
    · have hq : pk ≠ q := by rw [hk]; exact h
      simp [mapUpdate, mapLookup, hk, hq, h, ih]
    · by_cases hq : pk = q
      · simp [mapUpdate, mapLookup, hk, hq, Ne.symm h]
      · simp [mapUpdate, mapLookup, hk, hq, ih]

theorem Recv_resolves (w : worker) (s : List GProp) (fid : Nat) (a : context) (aid : Int)
    (hread : readContextGlobal s = aid) (hl : mapLookup w.contexts aid = some a) :
    Recv w s (JSValue.func fid)
      = IntrOut.ok { w with contexts := mapUpdate w.contexts aid (fun c => { c with recv := some (JSValue.func fid) }) } := by
  unfold Recv
  rw [hread, hl]
  rfl

theorem RecvSync_resolves (w : worker) (s : List GProp) (fid : Nat) (a : context) (aid : Int)
    (hread : readContextGlobal s = aid) (hl : mapLookup w.contexts aid = some a) :
    RecvSync w s (JSValue.func fid)
      = IntrOut.ok { w with contexts := mapUpdate w.contexts aid (fun c => { c with recv_sync_handler := some (JSValue.func fid) }) } := by
  unfold RecvSync
  rw [hread, hl]
  rfl

theorem guestStep_frame (w w2 : worker) (aid bid : Int) (op : GuestOp)
    (hne : aid ≠ bid) (hok : ctxIdOk w.contexts aid = true)
    (hop : isSetCtx op = false) (h : guestStep w aid op = some w2) :
    mapLookup w2.contexts bid = mapLookup w.contexts bid
    ∧ ctxIdOk w2.contexts aid = true := by
  unfold guestStep at h
  cases hl : mapLookup w.contexts aid with
  | none => rw [hl] at h; exact absurd h (by simp)
  | some a =>
    rw [hl] at h
    dsimp only at h
    have hread : readContextGlobal a.scope = aid := by
      unfold ctxIdOk at hok
      rw [hl] at hok
      exact beq_iff_eq.mp hok
    cases op with
    | setCtxGlobal v => simp [isSetCtx] at hop
    | regAsync fid =>
      dsimp only at h
      rw [Recv_resolves w a.scope fid a aid hread hl] at h
      dsimp only at h
      injection h with h
      constructor
      · rw [← h]
        exact mapLookup_mapUpdate_ne w.contexts aid bid _ hne
      · rw [← h]
        show ctxIdOk (mapUpdate w.contexts aid _) aid = true
        unfold ctxIdOk
        rw [mapLookup_mapUpdate_self, hl]
        show (readContextGlobal a.scope == aid) = true
        rw [hread]
        exact beq_self_eq_true aid
    | regSync fid =>
      dsimp only at h
      rw [RecvSync_resolves w a.scope fid a aid hread hl] at h
      dsimp only at h
      injection h with h
      constructor
      · rw [← h]
        exact mapLookup_mapUpdate_ne w.contexts aid bid _ hne
      · rw [← h]
        show ctxIdOk (mapUpdate w.contexts aid _) aid = true
        unfold ctxIdOk
        rw [mapLookup_mapUpdate_self, hl]
        show (readContextGlobal a.scope == aid) = true
        rw [hread]
        exact beq_self_eq_true aid

theorem idsAssigned_eq (t : List HostOp) :
    ∀ w : worker, idsAssigned w t
      = (List.range (countCreates t)).map (fun (k : Nat) => w.contextIndex + (k : Int)) := by
  induction t with
  | nil => intro w; simp [idsAssigned, countCreates]
  | cons op rest ih =>
    intro w
    cases op with
    | create cb rcb d =>
      show (context_new w cb rcb d).2.id :: idsAssigned (context_new w cb rcb d).1 rest = _
      rw [ih]
      have h2 : (context_new w cb rcb d).1.contextIndex = w.contextIndex + 1 := rfl
      rw [h2]
      have hc : countCreates (HostOp.create cb rcb d :: rest) = countCreates rest + 1 := rfl
      rw [hc, List.range_succ_eq_map, List.map_cons, List.map_map]
      have hhead : (context_new w cb rcb d).2.id = w.contextIndex + ((0 : Nat) : Int) := by
        show w.contextIndex = w.contextIndex + ((0 : Nat) : Int)
        simp
      rw [hhead]
      have htail : (List.range (countCreates rest)).map (fun (k : Nat) => w.contextIndex + 1 + (k : Int))
          = (List.range (countCreates rest)).map ((fun (k : Nat) => w.contextIndex + (k : Int)) ∘ Nat.succ) := by
        apply List.map_congr_left
        intro k _
        show w.contextIndex + 1 + (k : Int) = w.contextIndex + ((k + 1 : Nat) : Int)
        push_cast
        ring
      rw [htail]
    | disposeC cid =>
      show idsAssigned (context_dispose w cid) rest = _
      rw [ih]
      rfl

theorem runHost_contextIndex (t : List HostOp) :
    ∀ w : worker, (runHost w t).contextIndex = w.contextIndex + (countCreates t : Int) := by
  induction t with
  | nil => intro w; simp [runHost, countCreates]
  | cons op rest ih =>
    intro w
    cases op with
    | create cb rcb d =>
      show (runHost (context_new w cb rcb d).1 rest).contextIndex = _
      rw [ih]
      have h2 : (context_new w cb rcb d).1.contextIndex = w.contextIndex + 1 := rfl
      rw [h2]
      have hc : countCreates (HostOp.create cb rcb d :: rest) = countCreates rest + 1 := rfl
      rw [hc]
      push_cast
      ring
    | disposeC cid =>
      show (runHost (context_dispose w cid) rest).contextIndex = _
      rw [ih]
      rfl

/-- C3: worker_send returns status 1 and stores the fixed
handler-not-registered message "$recv not called" when the context has no
guest async handler registered; returns status 2 and stores the formatted
exception when the registered handler throws; and returns status 0
otherwise, whatever value the handler returns. -/
theorem C3_send_status (w : worker) (c : context) (msg : String)
    (beh : JSValue → String → CallResult) :
    (c.recv = none →
      worker_send w c msg beh = ({ w with last_exception := "$recv not called" }, 1))
    ∧ (∀ f e, c.recv = some f → beh f msg = CallResult.thrown e →
      worker_send w c msg beh = ({ w with last_exception := ExceptionString e }, 2))
    ∧ (∀ f v, c.recv = some f → beh f msg = CallResult.value v →
      worker_send w c msg beh = (w, 0)) := by
  refine ⟨?_, ?_, ?_⟩
  · intro h
    unfold worker_send
    rw [h]
  · intro f e hf hb
    unfold worker_send
    rw [hf]
    dsimp only
    rw [hb]
  · intro f v hf hb
    unfold worker_send
    rw [hf]
    dsimp only
    rw [hb]

theorem C3_send_status_witness :
    demoCtx.recv = none
    ∧ worker_send demoW0 demoCtx "m" (fun _ _ => CallResult.value JSValue.undefined)
        = ({ demoW0 with last_exception := "$recv not called" }, 1) :=
  ⟨rfl, (C3_send_status demoW0 demoCtx "m" (fun _ _ => CallResult.value JSValue.undefined)).1 rfl⟩

/-- C4: worker_sendSync never surfaces a distinguishable failure: with no
guest sync handler registered it returns the in-band sentinel
"err: $recvSync not called" (prefixed with the error marker "err: "); when
the handler returns a non-string value it returns the string sentinel
"err: non-string return value"; and when the handler returns a string it
returns that string directly. -/
theorem C4_sendSync_sentinels (w : worker) (c : context) (msg : String)
    (sbeh : JSValue → String → JSValue) :
    (c.recv_sync_handler = none →
      (worker_sendSync w c msg sbeh).1 = "err: $recvSync not called")
    ∧ (∀ f, c.recv_sync_handler = some f → (sbeh f msg).isString = false →
      (worker_sendSync w c msg sbeh).1 = "err: non-string return value")
    ∧ (∀ f s, c.recv_sync_handler = some f → sbeh f msg = JSValue.str s →
      (worker_sendSync w c msg sbeh).1 = s)
    ∧ List.isPrefixOf "err: ".data "err: $recvSync not called".data = true
    ∧ List.isPrefixOf "err: ".data "err: non-string return value".data = true := by
  refine ⟨?_, ?_, ?_, by decide, by decide⟩
  · intro h
    unfold worker_sendSync
    rw [h]
  · intro f hf hns
    unfold worker_sendSync
    rw [hf]
    dsimp only
    cases hb : sbeh f msg with
    | str s =>
      rw [hb] at hns
      exact absurd hns (by simp [JSValue.isString])
    | int n => rfl
    | func fid => rfl
    | intrinsic k => rfl
    | undefined => rfl
  · intro f s hf hb
    unfold worker_sendSync
    rw [hf]
    dsimp only
    rw [hb]

theorem C4_sendSync_sentinels_witness :
    demoCtx.recv_sync_handler = none
    ∧ (worker_sendSync demoW0 demoCtx "m" (fun _ _ => JSValue.undefined)).1
        = "err: $recvSync not called" :=
  ⟨rfl, (C4_sendSync_sentinels demoW0 demoCtx "m" (fun _ _ => JSValue.undefined)).1 rfl⟩

/-- C8: worker_load returns 0 when compile and run both succeed, 1 when
compilation fails, 2 when the run throws an uncaught exception, and on
every non-zero return overwrites the worker's last-exception slot with the
formatted diagnostic of that failure. -/
theorem C8_load_status (w : worker) (c : context) (name_s source_s : String)
    (engine : String → String → CompileOut) :
    (∀ e, engine name_s source_s = CompileOut.failed e →
      worker_load w c name_s source_s engine = ({ w with last_exception := ExceptionString e }, 1))
    ∧ (∀ e, engine name_s source_s = CompileOut.compiled (RunOut.threw e) →
      worker_load w c name_s source_s engine = ({ w with last_exception := ExceptionString e }, 2))
    ∧ (∀ v, engine name_s source_s = CompileOut.compiled (RunOut.completed v) →
      worker_load w c name_s source_s engine = (w, 0)) := by
  refine ⟨?_, ?_, ?_⟩ <;> intro x h <;> unfold worker_load <;> rw [h]

theorem C8_load_status_witness :
    (fun (_ : String) (_ : String) => CompileOut.failed demoExc) "n" "s"
        = CompileOut.failed demoExc
    ∧ worker_load demoW0 demoCtx "n" "s" (fun _ _ => CompileOut.failed demoExc)
        = ({ demoW0 with last_exception := ExceptionString demoExc }, 1) :=
  ⟨rfl, (C8_load_status demoW0 demoCtx "n" "s" (fun _ _ => CompileOut.failed demoExc)).1 demoExc rfl⟩

/-- C10: the guest-facing intrinsics guard their argument types by
assertion, not by a guest-catchable error: Recv and RecvSync on a
non-function first argument, and Send and SendSync on a non-string first
argument, end in the assert-failure outcome (the non-conforming branch
aborts) rather than returning an error value or throwing into the
guest. -/
theorem C10_assert_guards (w : worker) (s : List GProp) (arg : JSValue)
    (hostReply : Nat → String → Nat → String) :
    (arg.isFunction = false → Recv w s arg = IntrOut.assertFail)
    ∧ (arg.isFunction = false → RecvSync w s arg = IntrOut.assertFail)
    ∧ (arg.isString = false → Send w s arg = IntrOut.assertFail)
    ∧ (arg.isString = false → SendSync w s arg hostReply = IntrOut.assertFail) := by
  refine ⟨?_, ?_, ?_, ?_⟩
  · intro h
    unfold Recv
    rw [h]
    rfl
  · intro h
    unfold RecvSync
    rw [h]
    rfl
  · intro h
    cases arg with
    | str s2 => exact absurd h (by simp [JSValue.isString])
    | int n => rfl
    | func fid => rfl
    | intrinsic k => rfl
    | undefined => rfl
  · intro h
    cases arg with
    | str s2 => exact absurd h (by simp [JSValue.isString])
    | int n => rfl
    | func fid => rfl
    | intrinsic k => rfl
    | undefined => rfl

theorem C10_assert_guards_witness :
    (JSValue.int 3).isFunction = false
    ∧ JSValue.undefined.isString = false
    ∧ Recv demoW1 demoCtx.scope (JSValue.int 3) = IntrOut.assertFail
    ∧ RecvSync demoW1 demoCtx.scope (JSValue.int 3) = IntrOut.assertFail
    ∧ Send demoW1 demoCtx.scope JSValue.undefined = IntrOut.assertFail
    ∧ SendSync demoW1 demoCtx.scope JSValue.undefined (fun _ s _ => s) = IntrOut.assertFail :=
  ⟨rfl, rfl,
    (C10_assert_guards demoW1 demoCtx.scope (JSValue.int 3) (fun _ s _ => s)).1 rfl,
    (C10_assert_guards demoW1 demoCtx.scope (JSValue.int 3) (fun _ s _ => s)).2.1 rfl,
    (C10_assert_guards demoW1 demoCtx.scope JSValue.undefined (fun _ s _ => s)).2.2.1 rfl,
    (C10_assert_guards demoW1 demoCtx.scope JSValue.undefined (fun _ s _ => s)).2.2.2 rfl⟩

/-- C7: ExceptionString, given a caught error with no positional metadata,
returns the bare exception text plus a trailing newline; given positional
metadata it returns exactly, in order: the resource name, a colon, the
line number and a newline; the offending source line text; an underline of
startColumn leading spaces followed by (endColumn - startColumn) caret
characters; then the captured stack trace text when non-empty, else the
bare exception text again. -/
theorem C7_exception_format (e : ExcInfo) :
    (e.message = none → ExceptionString e = e.exception ++ "\n")
    ∧ (∀ m : MsgInfo, e.message = some m → 0 ≤ m.startColumn → m.startColumn ≤ m.endColumn →
      ExceptionString e =
        m.resourceName ++ ":" ++ toString m.lineNumber ++ "\n"
        ++ m.sourceLine ++ "\n"
        ++ String.mk (List.replicate m.startColumn.toNat ' ')
        ++ String.mk (List.replicate (m.endColumn - m.startColumn).toNat '^')
        ++ "\n"
        ++ (if 0 < e.stackTrace.length then e.stackTrace ++ "\n" else e.exception ++ "\n")) := by
  constructor
  · intro h
    unfold ExceptionString
    rw [h]
  · intro m hm h0 hse
    unfold ExceptionString
    rw [hm]
    dsimp only
    unfold appendLoop
    rw [show (" " : String) = String.mk [' '] from rfl,
        show ("^" : String) = String.mk ['^'] from rfl,
        appendLoopAux_char, appendLoopAux_char, sub_zero]
    by_cases hst : 0 < e.stackTrace.length
    · rw [if_pos hst, if_pos hst]
      simp only [str_assoc]
    · rw [if_neg hst, if_neg hst]
      simp only [str_assoc]

theorem C7_exception_format_witness :
    demoExc.message = some demoMsg
    ∧ (0 : Int) ≤ demoMsg.startColumn
    ∧ demoMsg.startColumn ≤ demoMsg.endColumn
    ∧ ExceptionString demoExc =
        demoMsg.resourceName ++ ":" ++ toString demoMsg.lineNumber ++ "\n"
        ++ demoMsg.sourceLine ++ "\n"
        ++ String.mk (List.replicate demoMsg.startColumn.toNat ' ')
        ++ String.mk (List.replicate (demoMsg.endColumn - demoMsg.startColumn).toNat '^')
        ++ "\n"
        ++ (if 0 < demoExc.stackTrace.length then demoExc.stackTrace ++ "\n"
            else demoExc.exception ++ "\n") :=
  ⟨rfl, by decide, by decide,
    (C7_exception_format demoExc).2 demoMsg rfl (by decide) (by decide)⟩

/-- C2 counterexample: in a worker with a single context (id 0) whose
guest async handler has been registered, context_dispose leaves the
registry entry for id 0 present — the id-to-context mapping still contains
c's id — and the recv handler reference is still set, not released. -/
theorem C2_counterexample :
    (mapLookup (context_dispose demoWreg 0).contexts 0).isSome = true
    ∧ (mapLookup (context_dispose demoWreg 0).contexts 0).map
        (fun c => (c.recv, c.freed))
      = some (some (JSValue.func 5), true) := by decide

/-- C2 as amended: context_dispose releases the record's
Persistent<Context> reference and frees the record; it does not reset the
guest-registered handler references and does not remove the entry for the
context's id from the worker's registry, which afterwards still maps that
id to the freed record with both handler slots intact. -/
theorem C2_dispose_effect (w : worker) (cid : Int) (c : context)
    (h : mapLookup w.contexts cid = some c) :
    mapLookup (context_dispose w cid).contexts cid
        = some { c with pctx := false, freed := true }
    ∧ ({ c with pctx := false, freed := true } : context).recv = c.recv
    ∧ ({ c with pctx := false, freed := true } : context).recv_sync_handler
        = c.recv_sync_handler := by
  refine ⟨?_, rfl, rfl⟩
  show mapLookup (mapUpdate w.contexts cid _) cid = _
  rw [mapLookup_mapUpdate_self, h]
  rfl

theorem C2_dispose_effect_witness :
    mapLookup demoWreg.contexts 0 = some { demoCtx with recv := some (JSValue.func 5) }
    ∧ mapLookup (context_dispose demoWreg 0).contexts 0
        = some { { demoCtx with recv := some (JSValue.func 5) } with pctx := false, freed := true } :=
  ⟨by decide,
    (C2_dispose_effect demoWreg 0 { demoCtx with recv := some (JSValue.func 5) } (by decide)).1⟩

/-- C5 counterexample: the identity field installed by context_new is not
read-only: in the fresh scope it is writable, and a guest assignment to
$context changes the value subsequently read back (from 0 to 7). -/
theorem C5_counterexample :
    scopeWritable demoCtx.scope "$context" = some true
    ∧ readContextGlobal demoCtx.scope = 0
    ∧ readContextGlobal (scopeWrite demoCtx.scope "$context" (JSValue.int 7)) = 7 := by
  decide

/-- C5 as amended: context_new assigns the current counter value as the
new context's id and increments the counter, installs exactly the five
intrinsics (diagnostic print, register-async, register-sync, send,
send-and-wait) into the fresh global scope, and stores the context's
integer id in the $context slot of that scope as an ordinary writable
property (installed with default attributes, so guest code can change
it). -/
theorem C5_createContext (w : worker) (cb rcb d : Nat) :
    (context_new w cb rcb d).2.id = w.contextIndex
    ∧ (context_new w cb rcb d).1.contextIndex = w.contextIndex + 1
    ∧ intrinsicsOf (context_new w cb rcb d).2.scope
        = [IntrinsicKind.printK, IntrinsicKind.recvK, IntrinsicKind.sendK,
           IntrinsicKind.sendSyncK, IntrinsicKind.recvSyncK]
    ∧ scopeGet (context_new w cb rcb d).2.scope "$context" = some (JSValue.int w.contextIndex)
    ∧ scopeWritable (context_new w cb rcb d).2.scope "$context" = some true :=
  ⟨rfl, rfl, rfl, rfl, rfl⟩

/-- C6: along every trace of createContext / disposeContext calls starting
from worker_new, the ids handed out are exactly 0, 1, 2, ... in order of
creation (dense), hence pairwise distinct and never reused after any
disposal within the run; each new context receives the current counter
value, createContext increments the counter and disposeContext leaves it
unchanged, so the counter is monotonically increasing. -/
theorem C6_dense_nonreused_ids (d : Nat) (t : List HostOp) :
    idsAssigned (worker_new d) t
        = (List.range (countCreates t)).map (fun (k : Nat) => (k : Int))
    ∧ (idsAssigned (worker_new d) t).Nodup
    ∧ (runHost (worker_new d) t).contextIndex = (countCreates t : Int)
    ∧ (∀ (w : worker) (cb rcb dd : Nat),
        (context_new w cb rcb dd).2.id = w.contextIndex
        ∧ (context_new w cb rcb dd).1.contextIndex = w.contextIndex + 1)
    ∧ (∀ (w : worker) (cid : Int), (context_dispose w cid).contextIndex = w.contextIndex) := by
  have hids := idsAssigned_eq t (worker_new d)
  have hw : (worker_new d).contextIndex = 0 := rfl
  rw [hw] at hids
  simp only [zero_add] at hids
  refine ⟨hids, ?_, ?_, fun w cb rcb dd => ⟨rfl, rfl⟩, fun w cid => rfl⟩
  · rw [hids]
    exact List.Nodup.map (fun a b hab => by exact_mod_cast hab) (List.nodup_range _)
  · rw [runHost_contextIndex t (worker_new d), hw, zero_add]

/-- C9: the last-exception slot is written only by the failing branches of
worker_load and worker_send: worker_sendSync returns the worker unchanged
on every path (both sentinel failures included), worker_last_exception is
a pure read of the slot, worker_load and worker_send return the worker
unchanged whenever the status is 0 (a successful call does not clear the
slot), and context_new, context_dispose and a completed registration
intrinsic leave the slot untouched. -/
theorem C9_last_exception_frame (w : worker) (c : context) (msg name_s source_s : String)
    (sbeh : JSValue → String → JSValue) (beh : JSValue → String → CallResult)
    (engine : String → String → CompileOut) (cb rcb d : Nat) (cid : Int)
    (s : List GProp) (arg : JSValue) :
    (worker_sendSync w c msg sbeh).2 = w
    ∧ worker_last_exception w = w.last_exception
    ∧ ((worker_load w c name_s source_s engine).2 = 0 →
        (worker_load w c name_s source_s engine).1 = w)
    ∧ ((worker_send w c msg beh).2 = 0 → (worker_send w c msg beh).1 = w)
    ∧ (context_new w cb rcb d).1.last_exception = w.last_exception
    ∧ (context_dispose w cid).last_exception = w.last_exception
    ∧ (∀ w2, Recv w s arg = IntrOut.ok w2 → w2.last_exception = w.last_exception) := by
  refine ⟨?_, rfl, ?_, ?_, rfl, rfl, ?_⟩
  · cases hr : c.recv_sync_handler with
    | none => simp [worker_sendSync, hr]
    | some f => cases hb : sbeh f msg <;> simp [worker_sendSync, hr, hb]
  · intro h
    cases heng : engine name_s source_s with
    | failed e => simp [worker_load, heng] at h
    | compiled r =>
      cases r with
      | threw e => simp [worker_load, heng] at h
      | completed v => simp [worker_load, heng]
  · intro h
    cases hr : c.recv with
    | none => simp [worker_send, hr] at h
    | some f =>
      cases hb : beh f msg with
      | thrown e => simp [worker_send, hr, hb] at h
      | value v => simp [worker_send, hr, hb]
  · intro w2 h
    cases hf : arg.isFunction with
    | false => simp [Recv, hf] at h
    | true =>
      cases hl : mapLookup w.contexts (readContextGlobal s) with
      | none => simp [Recv, hf, hl] at h
      | some a =>
        simp [Recv, hf, hl] at h
        subst h
        rfl

theorem C9_last_exception_frame_witness :
    (worker_sendSync demoW1 demoCtxReg "m" (fun _ _ => JSValue.undefined)).2 = demoW1
    ∧ (worker_load demoW1 demoCtxReg "n" "s" engOk).2 = 0
    ∧ (worker_load demoW1 demoCtxReg "n" "s" engOk).1 = demoW1
    ∧ (worker_send demoW1 demoCtxReg "m" behOk).2 = 0
    ∧ (worker_send demoW1 demoCtxReg "m" behOk).1 = demoW1
    ∧ Recv demoW1 demoCtx.scope (JSValue.func 9) = IntrOut.ok wRecv9
    ∧ wRecv9.last_exception = demoW1.last_exception :=
  ⟨(C9_last_exception_frame demoW1 demoCtxReg "m" "n" "s" (fun _ _ => JSValue.undefined)
      behOk engOk 0 0 0 0 demoCtx.scope (JSValue.func 9)).1,
   by decide,
   (C9_last_exception_frame demoW1 demoCtxReg "m" "n" "s" (fun _ _ => JSValue.undefined)
      behOk engOk 0 0 0 0 demoCtx.scope (JSValue.func 9)).2.2.1 (by decide),
   by decide,
   (C9_last_exception_frame demoW1 demoCtxReg "m" "n" "s" (fun _ _ => JSValue.undefined)
      behOk engOk 0 0 0 0 demoCtx.scope (JSValue.func 9)).2.2.2.1 (by decide),
   by decide,
   (C9_last_exception_frame demoW1 demoCtxReg "m" "n" "s" (fun _ _ => JSValue.undefined)
      behOk engOk 0 0 0 0 demoCtx.scope (JSValue.func 9)).2.2.2.2.2.2 wRecv9 (by decide)⟩

/-- C1 counterexample: on a worker holding two contexts A (id 0) and B
(id 1), guest code running entirely in A's global scope — first assigning
1 to its own writable $context global, then calling the register-async
intrinsic — overwrites B's guest async handler slot (B goes from no
registered handler to A's function), so registration calls inside A's
scope do not only affect A. -/
theorem C1_counterexample :
    (mapLookup demoW2.contexts 1).map (fun c => c.recv) = some none
    ∧ (runGuest demoW2 0 [GuestOp.setCtxGlobal 1, GuestOp.regAsync 9]).map
        (fun w => (mapLookup w.contexts 1).map (fun c => c.recv))
      = some (some (some (JSValue.func 9))) := by decide

/-- C1 as amended: the registration intrinsics operate on the context
whose id is currently stored in the caller's $context identity global;
that global is installed writable, so the isolation holds exactly when A
does not rewrite it: for any worker, any two distinct ids aid and bid, and
any sequence of guest operations in aid's scope that contains no write to
the $context global, running the sequence (from a state where aid's
identity global still reads aid) leaves the registry entry of bid — in
particular B's registered handlers — unchanged. -/
theorem C1_ctx_isolation (ops : List GuestOp) : ∀ (w w2 : worker) (aid bid : Int),
    aid ≠ bid → ctxIdOk w.contexts aid = true →
    ops.all (fun op => !isSetCtx op) = true →
    runGuest w aid ops = some w2 →
    mapLookup w2.contexts bid = mapLookup w.contexts bid := by
  induction ops with
  | nil =>
    intro w w2 aid bid hne hok hall h
    unfold runGuest at h
    injection h with h
    rw [h]
  | cons op rest ih =>
    intro w w2 aid bid hne hok hall h
    simp only [List.all_cons, Bool.and_eq_true, Bool.not_eq_true'] at hall
    unfold runGuest at h
    cases hs : guestStep w aid op with
    | none => rw [hs] at h; exact absurd h (by simp)
    | some wmid =>
      rw [hs] at h
      obtain ⟨hfr, hok2⟩ := guestStep_frame w wmid aid bid op hne hok hall.1 hs
      rw [← hfr]
      exact ih wmid w2 aid bid hne hok2 (by simp [List.all_eq_true, Bool.not_eq_true', hall.2]) h

theorem C1_ctx_isolation_witness :
    ((0 : Int) ≠ 1)
    ∧ ctxIdOk demoW2.contexts 0 = true
    ∧ ([GuestOp.regAsync 9].all (fun op => !isSetCtx op)) = true
    ∧ runGuest demoW2 0 [GuestOp.regAsync 9] = some wAfterReg
    ∧ mapLookup wAfterReg.contexts 1 = mapLookup demoW2.contexts 1 :=
  ⟨by decide, by decide, by decide, by decide,
    C1_ctx_isolation [GuestOp.regAsync 9] demoW2 wAfterReg 0 1
      (by decide) (by decide) (by decide) (by decide)⟩

end V8Worker
